import Mathlib

/-!
Verification of the dbvi modal database client (src/main.rs).

The embedding models the modal input state machine (`handle_input`), the
recursive command executor (`handle_command` / `handle_chain`), the session
state (`State`), and the startup control flow of `App::new` that governs
terminal-mode restoration.

External collaborators are modelled as parameters:
  * the database query capability (`sqlx::query(raw).fetch_all(pool)`) is a
    function `Db := String → Except String (List Row)`;
  * the Debug formatting of the fetched row vector is `formatRows`;
  * the fallible terminal/crossterm calls of `App::new` are booleans in
    `StartupEnv` saying whether each call succeeds.
The executor itself performs no fallible terminal I/O in its body (the
`terminal` argument is only threaded through recursion), so its error
channel — the `io::Result` propagated by `?` inside `Chain` — is embedded
as an `Except` that mirrors the short-circuiting structure of the source.
-/

/-- Rows returned by the external query capability are opaque records;
they only ever reach the session state through `formatRows`. -/
abbrev Row := String

/-- The external query-execution capability:
`sqlx::query(&raw_query).fetch_all(&state.pool)` returns either a row
sequence or a descriptive error. -/
abbrev Db := String → Except String (List Row)

/-- Models the Debug formatting the source applies to the fetched row
vector before storing it into `state.result` — the textual rendering of a
row sequence. -/
def formatRows (rows : List Row) : String := toString rows

/-- Rust `enum Mode` with variants Normal and Insert, from src/main.rs. -/
inductive Mode where
  | normal
  | insert
deriving DecidableEq, Repr

/-- Rust `struct State` from src/main.rs, minus the `pool` handle (the pool is
external; the executor receives the query capability as the `Db` oracle). -/
structure State where
  is_running : Bool
  mode : Mode
  status : String
  query : String
  result : String
deriving DecidableEq, Repr

/-- Rust `State::new` from src/main.rs. -/
def State.new : State :=
  { is_running := true
  , mode := Mode.normal
  , status := "Welcome to dbvi! Press `q` to quit."
  , query := ""
  , result := "" }

/-- Rust `enum Command` from src/main.rs. -/
inductive Command where
  | runQuery : String → Command
  | chain : List Command → Command
  | none : Command
  | quit : Command

/-- Key codes distinguished by `handle_input`; every other key code the
terminal can deliver falls into `otherKey`. -/
inductive KeyCode where
  | char : Char → KeyCode
  | esc
  | enter
  | backspace
  | otherKey
deriving DecidableEq, Repr

/-- Crossterm events: a key press, or any non-key event (resize, mouse, …). -/
inductive CEvent where
  | key : KeyCode → CEvent
  | nonKey
deriving DecidableEq, Repr

/-- Rust `handle_input` from src/main.rs: consumes one event, mutates
mode/buffer, returns the command to execute.  The Rust function mutates
`state` in place; here the updated state is returned alongside the command. -/
def handle_input (state : State) (event : CEvent) : State × Command :=
  match event with
  | CEvent.nonKey => (state, Command.none)
  | CEvent.key code =>
    match state.mode with
    | Mode.normal =>
      match code with
      | KeyCode.char 'q' => (state, Command.quit)
      | KeyCode.char 'i' => ({ state with mode := Mode.insert }, Command.none)
      | _ => (state, Command.none)
    | Mode.insert =>
      match code with
      | KeyCode.esc => ({ state with mode := Mode.normal }, Command.none)
      | KeyCode.char c => ({ state with query := state.query.push c }, Command.none)
      | KeyCode.enter => ({ state with mode := Mode.normal }, Command.runQuery state.query)
      | KeyCode.backspace => ({ state with query := state.query.dropRight 1 }, Command.none)
      | KeyCode.otherKey => (state, Command.none)

mutual
/-- Rust `handle_command` from src/main.rs: interprets a command against the
session state and the query capability `db`.  The `io::Result<()>` return
is embedded as `Except String State`; the body constructs no error itself
(it contains no fallible terminal call), errors can only arise from the
recursive `?` inside `Chain`. -/
def handle_command (db : Db) : Command → State → Except String State
  | Command.runQuery rawQuery, state =>
    match db rawQuery with
    | Except.ok results =>
      Except.ok { state with
        result := formatRows results
      , status := "Query executed successfully"
      , query := "" }
    | Except.error err =>
      Except.ok { state with
        result := ""
      , status := "Failed to run query: " ++ err }
  | Command.quit, state => Except.ok { state with is_running := false }
  | Command.none, state => Except.ok state
  | Command.chain cmds, state => handle_chain db cmds state

/-- The for-loop of the `Chain` arm, which awaits
`handle_command(cmd, state, terminal)` with the try-operator on each
element in order; the try-operator short-circuits on the first propagated
error. -/
def handle_chain (db : Db) : List Command → State → Except String State
  | [], state => Except.ok state
  | c :: cs, state =>
    match handle_command db c state with
    | Except.ok state' => handle_chain db cs state'
    | Except.error e => Except.error e
end

/-!
Fuel-indexed replica of the executor.  `runFuel` repeats the body of
`handle_command` literally but spends one unit of fuel per recursive
entry and answers `Option.none` when fuel runs out; it witnesses that the
source's self-recursion needs only finitely many nested entries on every
finite command tree.
-/

mutual
/-- Fuel-indexed `handle_command`: the same case analysis, one fuel per
entry. -/
def runFuel (db : Db) : Nat → Command → State → Option (Except String State)
  | 0, _, _ => Option.none
  | Nat.succ _, Command.runQuery rawQuery, state =>
    match db rawQuery with
    | Except.ok results =>
      some (Except.ok { state with
        result := formatRows results
      , status := "Query executed successfully"
      , query := "" })
    | Except.error err =>
      some (Except.ok { state with
        result := ""
      , status := "Failed to run query: " ++ err })
  | Nat.succ _, Command.quit, state => some (Except.ok { state with is_running := false })
  | Nat.succ _, Command.none, state => some (Except.ok state)
  | Nat.succ fuel, Command.chain cmds, state => runChainFuel db fuel cmds state

/-- Fuel-indexed `handle_chain`. -/
def runChainFuel (db : Db) : Nat → List Command → State → Option (Except String State)
  | 0, _, _ => Option.none
  | Nat.succ _, [], state => some (Except.ok state)
  | Nat.succ fuel, c :: cs, state =>
    match runFuel db fuel c state with
    | some (Except.ok state') => runChainFuel db fuel cs state'
    | some (Except.error e) => some (Except.error e)
    | Option.none => Option.none
end

mutual
/-- Nesting depth of a command tree: an upper bound on the fuel the
executor needs. -/
def cmdDepth : Command → Nat
  | Command.runQuery _ => 1
  | Command.quit => 1
  | Command.none => 1
  | Command.chain cmds => chainDepth cmds + 1

/-- Nesting depth of a command list. -/
def chainDepth : List Command → Nat
  | [] => 1
  | c :: cs => max (cmdDepth c) (chainDepth cs) + 1
end

/-!
Model of the startup control flow of `App::new` (src/main.rs lines
206-223), which acquires the terminal (raw mode, alternate screen) and
the database pool.  Each fallible external call is an input saying
whether it succeeds.  The trace records which exit the function takes,
how many times `restore_terminal_state` runs on that path, and whether
raw mode had already been enabled when the function exits.  On every
path that exits before `Ok(Self ...)`, no `App` value exists, so the
`Drop` implementation (which is the only other caller of
`restore_terminal_state`) can never run later for that path.
-/

/-- Outcomes of the fallible external calls made by `App::new`, plus the
CLI-supplied connection URL. -/
structure StartupEnv where
  enableRawOk : Bool
  enterAltScreenOk : Bool
  terminalNewOk : Bool
  url : Option String
  connectOk : Bool
deriving DecidableEq, Repr

/-- How `App::new` exits: with a constructed `App`, with an `Err` return,
or by the panic of the `.expect` on `PgPool::connect`. -/
inductive StartupExit where
  | appReady
  | errReturned
  | panicked
deriving DecidableEq, Repr

/-- Trace of one run of `App::new`. -/
structure StartupTrace where
  exit : StartupExit
  restoreRuns : Nat
  rawModeEnabled : Bool
deriving DecidableEq, Repr

/-- Rust `App::new` from src/main.rs as a control-flow trace, statement by
statement: `enable_raw_mode()?`, then the `execute!` entering the
alternate screen with `?`, then `Terminal::new(backend)?`, then the
missing-URL early return (the only path that calls
`restore_terminal_state` itself), then the `PgPool::connect(url)` call
whose failure panics through `.expect`. -/
def appNew (e : StartupEnv) : StartupTrace :=
  if !e.enableRawOk then
    { exit := StartupExit.errReturned, restoreRuns := 0, rawModeEnabled := false }
  else if !e.enterAltScreenOk then
    { exit := StartupExit.errReturned, restoreRuns := 0, rawModeEnabled := true }
  else if !e.terminalNewOk then
    { exit := StartupExit.errReturned, restoreRuns := 0, rawModeEnabled := true }
  else
    match e.url with
    | Option.none =>
      { exit := StartupExit.errReturned, restoreRuns := 1, rawModeEnabled := true }
    | some _ =>
      if !e.connectOk then
        { exit := StartupExit.panicked, restoreRuns := 0, rawModeEnabled := true }
      else
        { exit := StartupExit.appReady, restoreRuns := 0, rawModeEnabled := true }

/-- A startup run in which entering the alternate screen fails after raw
mode was already enabled. -/
def envAltScreenFails : StartupEnv :=
  { enableRawOk := true
  , enterAltScreenOk := false
  , terminalNewOk := true
  , url := some "postgres://localhost/db"
  , connectOk := true }

/-- A startup run in which the database connection fails after the whole
terminal setup succeeded. -/
def envConnectFails : StartupEnv :=
  { enableRawOk := true
  , enterAltScreenOk := true
  , terminalNewOk := true
  , url := some "postgres://localhost/db"
  , connectOk := false }

/-- A query capability that succeeds on everything with an empty row set. -/
def dbEmpty : Db := fun _ => Except.ok []

/-- A query capability that fails on everything. -/
def dbFailAll : Db := fun _ => Except.error "syntax error"

/-- A query capability that rejects exactly the text it deems bad SQL. -/
def dbBadSql : Db := fun q =>
  if q = "bad sql" then Except.error "syntax error at bad sql" else Except.ok []

/-- Dispatches a list of printable-character key presses through
`handle_input` one at a time, collecting the returned commands. -/
def dispatchChars (st : State) : List Char → State × List Command
  | [] => (st, [])
  | c :: cs =>
    let step := handle_input st (CEvent.key (KeyCode.char c))
    let rest := dispatchChars step.1 cs
    (rest.1, step.2 :: rest.2)

mutual
/-- The executor never produces an error: every branch of
`handle_command` returns `Except.ok` (the only error channel is the
recursive try-operator, and no leaf fails). -/
theorem handle_command_ok (db : Db) : ∀ (c : Command) (st : State),
    ∃ st', handle_command db c st = Except.ok st'
  | Command.runQuery q, st => by
    unfold handle_command
    cases db q with
    | ok results => exact ⟨_, rfl⟩
    | error e => exact ⟨_, rfl⟩
  | Command.quit, st => ⟨_, rfl⟩
  | Command.none, st => ⟨st, rfl⟩
  | Command.chain cmds, st => handle_chain_ok db cmds st

/-- `handle_chain` never produces an error. -/
theorem handle_chain_ok (db : Db) : ∀ (cs : List Command) (st : State),
    ∃ st', handle_chain db cs st = Except.ok st'
  | [], st => ⟨st, rfl⟩
  | c :: cs, st => by
    obtain ⟨st1, h1⟩ := handle_command_ok db c st
    obtain ⟨st2, h2⟩ := handle_chain_ok db cs st1
    exact ⟨st2, by unfold handle_chain; rw [h1]; exact h2⟩
end

mutual
/-- `is_running` is monotone under execution: no command turns it from
false back to true. -/
theorem handle_command_running_mono (db : Db) : ∀ (c : Command) (st st' : State),
    handle_command db c st = Except.ok st' → st'.is_running = true → st.is_running = true
  | Command.runQuery q, st, st' => by
    unfold handle_command
    cases db q with
    | ok results => intro h hr; injection h with h; subst h; exact hr
    | error e => intro h hr; injection h with h; subst h; exact hr
  | Command.quit, st, st' => by
    intro h hr
    unfold handle_command at h
    injection h with h; subst h
    exact absurd hr (by simp)
  | Command.none, st, st' => by
    intro h hr
    unfold handle_command at h
    injection h with h; subst h
    exact hr
  | Command.chain cmds, st, st' => fun h hr =>
    handle_chain_running_mono db cmds st st' h hr

/-- `is_running` is monotone under chain execution. -/
theorem handle_chain_running_mono (db : Db) : ∀ (cs : List Command) (st st' : State),
    handle_chain db cs st = Except.ok st' → st'.is_running = true → st.is_running = true
  | [], st, st' => by
    intro h hr
    injection h with h; subst h
    exact hr
  | c :: cs, st, st' => by
    intro h hr
    unfold handle_chain at h
    cases hc : handle_command db c st with
    | ok st1 =>
      rw [hc] at h
      exact handle_command_running_mono db c st st1 hc
        (handle_chain_running_mono db cs st1 st' h hr)
    | error e => rw [hc] at h; cases h
end

mutual
/-- `runFuel` agrees with `handle_command` once the fuel reaches the
command's nesting depth. -/
theorem runFuel_eq (db : Db) : ∀ (c : Command) (n : Nat), cmdDepth c ≤ n →
    ∀ st, runFuel db n c st = some (handle_command db c st)
  | Command.runQuery q, Nat.succ n, _, st => by
    unfold runFuel handle_command
    cases db q with
    | ok results => rfl
    | error e => rfl
  | Command.quit, Nat.succ n, _, st => rfl
  | Command.none, Nat.succ n, _, st => rfl
  | Command.chain cmds, Nat.succ n, h, st => by
    have hn : chainDepth cmds ≤ n := by
      unfold cmdDepth at h; omega
    exact runChainFuel_eq db cmds n hn st
  | c, 0, h, st => by
    exact absurd h (by cases c <;> simp [cmdDepth])

/-- `runChainFuel` agrees with `handle_chain` once the fuel reaches the
list's nesting depth. -/
theorem runChainFuel_eq (db : Db) : ∀ (cs : List Command) (n : Nat), chainDepth cs ≤ n →
    ∀ st, runChainFuel db n cs st = some (handle_chain db cs st)
  | [], Nat.succ n, _, st => rfl
  | c :: cs, Nat.succ n, h, st => by
    have hc : cmdDepth c ≤ n := by unfold chainDepth at h; omega
    have hcs : chainDepth cs ≤ n := by unfold chainDepth at h; omega
    unfold runChainFuel handle_chain
    rw [runFuel_eq db c n hc st]
    cases hx : handle_command db c st with
    | ok st' => exact runChainFuel_eq db cs n hcs st'
    | error e => rfl
  | cs, 0, h, _ => by
    exact absurd h (by cases cs <;> simp [chainDepth])
end

/-- A single printable character typed in Insert mode is appended to the
buffer and produces no command. -/
theorem handle_input_insert_char (st : State) (c : Char) (h : st.mode = Mode.insert) :
    handle_input st (CEvent.key (KeyCode.char c)) =
      ({ st with query := st.query.push c }, Command.none) := by
  unfold handle_input
  rw [h]

/-- Pushing a character and then appending a tail of characters is the
same as appending the character-led list. -/
theorem push_append_mk (s : String) (c : Char) (cs : List Char) :
    (s.push c) ++ String.mk cs = s ++ String.mk (c :: cs) := by
  cases s with
  | mk data =>
    show String.mk ((data ++ [c]) ++ cs) = String.mk (data ++ (c :: cs))
    rw [List.append_assoc]
    rfl

/-- Input dispatch never touches `is_running`: every branch of
`handle_input` either returns the state unchanged or updates only the
mode or query field. -/
theorem handle_input_preserves_running (st : State) (ev : CEvent) :
    ((handle_input st ev).1).is_running = st.is_running := by
  unfold handle_input
  repeat' split
  all_goals rfl

/-- C1: executing RunQuery(text) has exactly these effects: on success of
the external query call, `result` is set to the formatted row sequence,
`status` to the success message and `query` is cleared; on failure,
`result` is cleared, `status` embeds the failure description and `query`
is left unchanged; in both cases `is_running` (and `mode`) are unchanged,
as the record updates show field by field. -/
theorem runQuery_effects (db : Db) (st : State) (q : String) :
    (∀ rows, db q = Except.ok rows →
      handle_command db (Command.runQuery q) st =
        Except.ok { st with
          result := formatRows rows
        , status := "Query executed successfully"
        , query := "" })
    ∧ (∀ e, db q = Except.error e →
      handle_command db (Command.runQuery q) st =
        Except.ok { st with
          result := ""
        , status := "Failed to run query: " ++ e }) := by
  constructor
  · intro rows h
    unfold handle_command
    rw [h]
  · intro e h
    unfold handle_command
    rw [h]

/-- Witness for C1 at a concrete succeeding and a concrete failing query
capability. -/
theorem runQuery_effects_witness :
    handle_command dbEmpty (Command.runQuery "select 1") State.new =
      Except.ok { State.new with
        result := formatRows []
      , status := "Query executed successfully"
      , query := "" }
    ∧ handle_command dbFailAll (Command.runQuery "select 1") State.new =
      Except.ok { State.new with
        result := ""
      , status := "Failed to run query: " ++ "syntax error" } :=
  ⟨(runQuery_effects dbEmpty State.new "select 1").1 [] rfl,
   (runQuery_effects dbFailAll State.new "select 1").2 "syntax error" rfl⟩

/-- C2: Chain executes its elements in order, short-circuiting the rest of
the list exactly when an element propagates an infrastructure error
(first conjunct); a database-level failure never aborts the chain, since
execution always returns `Except.ok` (second conjunct); and concretely,
a chain of RunQuery on rejected SQL followed by Quit ends with
`is_running = false` and the failure status of the first element (third
conjunct). -/
theorem chain_order_and_db_failures :
    (∀ (db : Db) (c : Command) (cs : List Command) (st : State),
      handle_command db (Command.chain (c :: cs)) st =
        match handle_command db c st with
        | Except.ok st' => handle_command db (Command.chain cs) st'
        | Except.error e => Except.error e)
    ∧ (∀ (db : Db) (cs : List Command) (st : State),
        ∃ st', handle_command db (Command.chain cs) st = Except.ok st')
    ∧ (∀ st : State,
        handle_command dbBadSql
            (Command.chain [Command.runQuery "bad sql", Command.quit]) st =
          Except.ok { st with
            result := ""
          , status := "Failed to run query: syntax error at bad sql"
          , is_running := false }) := by
  refine ⟨fun db c cs st => rfl, fun db cs st => handle_chain_ok db cs st, fun st => rfl⟩

/-- C3: in Insert mode, Enter transitions the mode to Normal and returns
exactly one RunQuery command carrying the buffer contents at the moment
of the keypress; the buffer itself is untouched (the record update
changes only the mode field). -/
theorem insert_enter_emits_runQuery (st : State) (h : st.mode = Mode.insert) :
    handle_input st (CEvent.key KeyCode.enter) =
      ({ st with mode := Mode.normal }, Command.runQuery st.query) := by
  unfold handle_input
  rw [h]

/-- Witness for C3 at a concrete Insert-mode state with a non-empty
buffer. -/
theorem insert_enter_emits_runQuery_witness :
    handle_input { State.new with mode := Mode.insert, query := "select 1" }
        (CEvent.key KeyCode.enter) =
      ({ State.new with mode := Mode.normal, query := "select 1" },
        Command.runQuery "select 1") :=
  insert_enter_emits_runQuery
    { State.new with mode := Mode.insert, query := "select 1" } rfl

/-- C4: a failure of the query capability during RunQuery is captured
locally into the session state: the executor returns `Except.ok` (never
propagating the database error), the failure description is surfaced in
the status text, and `is_running` — hence the loop — is untouched, as the
record update shows field by field.  The second conjunct reserves the
error channel for the infrastructure failures of the callers: no command
ever makes the executor return `Except.error`. -/
theorem runQuery_failure_captured (db : Db) (q : String) (st : State) (e : String)
    (h : db q = Except.error e) :
    handle_command db (Command.runQuery q) st =
      Except.ok { st with
        result := ""
      , status := "Failed to run query: " ++ e }
    ∧ (∀ (c : Command) (st₀ : State),
        ∃ st₁, handle_command db c st₀ = Except.ok st₁) := by
  constructor
  · unfold handle_command
    rw [h]
  · exact fun c st₀ => handle_command_ok db c st₀

/-- Witness for C4 at a concrete failing query capability. -/
theorem runQuery_failure_captured_witness :
    handle_command dbFailAll (Command.runQuery "oops") State.new =
      Except.ok { State.new with
        result := ""
      , status := "Failed to run query: " ++ "syntax error" } :=
  (runQuery_failure_captured dbFailAll "oops" State.new "syntax error" rfl).1

/-- C5: `is_running` is a one-way latch.  It starts true
(first conjunct); no command execution can turn it from false back to
true (second conjunct); input dispatch never changes it at all (third
conjunct); Quit sets it false and a repeated Quit leaves the state
identical to a single dispatch (fourth conjunct). -/
theorem running_one_way_latch :
    State.new.is_running = true
    ∧ (∀ (db : Db) (c : Command) (st st' : State),
        handle_command db c st = Except.ok st' →
        st'.is_running = true → st.is_running = true)
    ∧ (∀ (st : State) (ev : CEvent), ((handle_input st ev).1).is_running = st.is_running)
    ∧ (∀ (db : Db) (st : State),
        handle_command db Command.quit st = Except.ok { st with is_running := false }
        ∧ handle_command db Command.quit { st with is_running := false } =
            Except.ok { st with is_running := false }) :=
  ⟨rfl, fun db c st st' h hr => handle_command_running_mono db c st st' h hr,
    fun st ev => handle_input_preserves_running st ev,
    fun _ _ => ⟨rfl, rfl⟩⟩

/-- Witness for C5's latch implication at a concrete no-op execution. -/
theorem running_one_way_latch_witness : State.new.is_running = true :=
  running_one_way_latch.2.1 dbEmpty Command.none State.new State.new rfl rfl

/-- C6: typing any sequence of printable characters in Insert mode
appends exactly those characters, in order, to the buffer, and every
such dispatch returns `Command.none`. -/
theorem insert_typing_appends (st : State) (cs : List Char) (h : st.mode = Mode.insert) :
    (dispatchChars st cs).1.query = st.query ++ String.mk cs
    ∧ (dispatchChars st cs).2 = List.replicate cs.length Command.none := by
  induction cs generalizing st with
  | nil =>
    refine ⟨?_, rfl⟩
    show st.query = st.query ++ String.mk []
    cases st.query with
    | mk data =>
      show String.mk data = String.mk (data ++ [])
      rw [List.append_nil]
  | cons c cs ih =>
    have hstep := handle_input_insert_char st c h
    obtain ⟨ihq, ihc⟩ := ih { st with query := st.query.push c } h
    constructor
    · have hfst : (dispatchChars st (c :: cs)).1 =
          (dispatchChars { st with query := st.query.push c } cs).1 := by
        show (dispatchChars (handle_input st (CEvent.key (KeyCode.char c))).1 cs).1 = _
        rw [hstep]
      rw [hfst, ihq, push_append_mk]
    · have hsnd : (dispatchChars st (c :: cs)).2 =
          (handle_input st (CEvent.key (KeyCode.char c))).2 ::
            (dispatchChars (handle_input st (CEvent.key (KeyCode.char c))).1 cs).2 := rfl
      rw [hsnd, hstep]
      show Command.none :: (dispatchChars { st with query := st.query.push c } cs).2 = _
      rw [ihc]
      rfl

/-- Witness for C6 at a concrete Insert-mode state and character list. -/
theorem insert_typing_appends_witness :
    (dispatchChars { State.new with mode := Mode.insert } (['s', 'e', 'l'] : List Char)).1.query =
        ({ State.new with mode := Mode.insert } : State).query ++ String.mk ['s', 'e', 'l']
    ∧ (dispatchChars { State.new with mode := Mode.insert } (['s', 'e', 'l'] : List Char)).2 =
        List.replicate (['s', 'e', 'l'] : List Char).length Command.none :=
  insert_typing_appends { State.new with mode := Mode.insert } ['s', 'e', 'l'] rfl

/-- C7: Quit sets `is_running` to false and nothing else: mode, status,
query buffer and last result are all unchanged. -/
theorem quit_frame_effect (db : Db) (st : State) :
    ∃ st', handle_command db Command.quit st = Except.ok st'
      ∧ st'.is_running = false
      ∧ st'.mode = st.mode
      ∧ st'.status = st.status
      ∧ st'.query = st.query
      ∧ st'.result = st.result :=
  ⟨{ st with is_running := false }, rfl, rfl, rfl, rfl, rfl, rfl⟩

/-- C8: Backspace in Insert mode drops the last character of the buffer,
and on an empty buffer it is a total no-op — the state is returned
unchanged, with no underflow or error. -/
theorem backspace_no_underflow (st : State) (h : st.mode = Mode.insert) :
    handle_input st (CEvent.key KeyCode.backspace) =
      ({ st with query := st.query.dropRight 1 }, Command.none)
    ∧ (st.query = "" → handle_input st (CEvent.key KeyCode.backspace) = (st, Command.none)) := by
  have h1 : handle_input st (CEvent.key KeyCode.backspace) =
      ({ st with query := st.query.dropRight 1 }, Command.none) := by
    unfold handle_input
    rw [h]
  refine ⟨h1, fun hq => ?_⟩
  rw [h1]
  have hst : ({ st with query := st.query.dropRight 1 } : State) = st := by
    cases st
    simp_all [String.dropRight]
    rfl
  rw [hst]

/-- Witness for C8 at a concrete Insert-mode state with an empty buffer. -/
theorem backspace_no_underflow_witness :
    handle_input { State.new with mode := Mode.insert } (CEvent.key KeyCode.backspace) =
      ({ State.new with mode := Mode.insert }, Command.none) :=
  (backspace_no_underflow { State.new with mode := Mode.insert } rfl).2 rfl

/-- C9 (counterexample to the spec's restore-on-every-exit-path claim):
two startup exit paths of `App::new` that happen after raw mode has been
enabled but run `restore_terminal_state` zero times — the alternate
screen `execute!` failing (an `Err` return before any `App` exists, so
`Drop` never runs either), and `PgPool::connect` failing (a panic through
`.expect` before any `App` exists). -/
theorem startup_restore_skipped :
    appNew envAltScreenFails =
      { exit := StartupExit.errReturned, restoreRuns := 0, rawModeEnabled := true }
    ∧ appNew envConnectFails =
      { exit := StartupExit.panicked, restoreRuns := 0, rawModeEnabled := true } :=
  ⟨rfl, rfl⟩

/-- C10: command execution terminates on every finite command value: fuel
equal to the command tree's nesting depth already suffices for the
fuel-indexed replica of the executor to finish with the executor's
result, and that result is always a success. -/
theorem executor_terminates (db : Db) (c : Command) (st : State) :
    ∃ (n : Nat) (st' : State), runFuel db n c st = some (Except.ok st')
      ∧ handle_command db c st = Except.ok st' := by
  obtain ⟨st', h⟩ := handle_command_ok db c st
  refine ⟨cmdDepth c, st', ?_, h⟩
  rw [runFuel_eq db c (cmdDepth c) (Nat.le_refl _) st, h]
